import Mathlib

/-!
Verification development for the SFPLiberate backend BLE proxy core.

Shallow embedding of:
* `src/backend/app/services/esphome/connection_manager.py` (connection registry),
* `src/backend/app/api/v1/ble_proxy.py` (WebSocket session handler),
* `src/backend/app/services/esphome/schemas.py` (MAC address validation),
* `src/backend/app/config.py` (timeout configuration, at its boundary).

Python dictionaries are modelled as association lists holding at most one
binding per key; asynchronous transport calls are recorded in explicit traces,
and the outcome of each external transport operation (success, timeout,
exception) is supplied as an explicit behaviour parameter, so that each Python
`try`/`except` path becomes a case of a total Lean function.
-/

namespace SFPLiberate

/-! Connection manager embedding (connection_manager.py). -/

/-- Embeds the `ActiveConnection` dataclass (connection_manager.py lines 18-29).
The opaque `APIClient` object and the Python callable are represented by
numeric handles. -/
structure ActiveConnection where
  mac_address : String
  device_name : Option String
  proxy_name : String
  client : Nat
  service_uuid : String
  notify_char_uuid : String
  write_char_uuid : String
  notification_callback : Option Nat
deriving DecidableEq, Repr

/-- The `self.connections` dict (`Dict[str, ActiveConnection]`, keyed by
client id), encoded as an association list with at most one binding per key. -/
abbrev Conns := List (String × ActiveConnection)

/-- Dict lookup: `self.connections.get(client_id)`. -/
def lookupConn : Conns → String → Option ActiveConnection
  | [], _ => none
  | p :: t, k => if p.1 = k then some p.2 else lookupConn t k

/-- Dict deletion: `del self.connections[client_id]` (uniqueness of keys makes
removing every binding for the key the same as removing the single one). -/
def eraseConn : Conns → String → Conns
  | [], _ => []
  | p :: t, k => if p.1 = k then eraseConn t k else p :: eraseConn t k

/-- Dict assignment: `self.connections[client_id] = conn`. -/
def insertConn (l : Conns) (k : String) (c : ActiveConnection) : Conns :=
  eraseConn l k ++ [(k, c)]

/-- Number of registry bindings held for one key. -/
def countKey : Conns → String → Nat
  | [], _ => 0
  | p :: t, k => (if p.1 = k then 1 else 0) + countKey t k

/-- A notification-forwarding closure installed on the transport client by
`_subscribe_notifications` (lines 225-240): the `on_notification` closure
captures the device MAC, the characteristic UUID and the Python callback. The
closure lives on the transport client, not in the registry. -/
structure NotifySub where
  mac : String
  charUuid : String
  callback : Nat
deriving DecidableEq, Repr

/-- Full manager state: the registry dict plus the closures installed on the
transport (the latter survive registry mutation, as in the source). -/
structure MgrState where
  conns : Conns
  subs : List NotifySub
deriving DecidableEq, Repr

/-- Calls issued to the ESPHome transport client, in program order. -/
inductive TransportCall where
  | deviceConnect (addr : String)
  | deviceDisconnect (addr : String)
  | gattWrite (addr : String) (handle : Nat) (data : List Nat) (response : Bool)
  | subscribeRawAdvertisements (callback : Nat)
deriving DecidableEq, Repr

/-- Recognizer used to state trace properties without binders. -/
def isDeviceDisconnect : TransportCall → Bool
  | .deviceDisconnect _ => true
  | _ => false

/-- Recognizer for transport-level device connect calls. -/
def isDeviceConnect : TransportCall → Bool
  | .deviceConnect _ => true
  | _ => false

/-- Recognizer for transport-level GATT write calls. -/
def isGattWrite : TransportCall → Bool
  | .gattWrite _ _ _ _ => true
  | _ => false

/-- Outcome of `await asyncio.wait_for(client.bluetooth_device_connect(...))`
(connection_manager.py lines 89-92): success, `asyncio.TimeoutError`, or any
other exception with its message. -/
inductive ConnectOutcome where
  | ok
  | timeout
  | fail (msg : String)
deriving DecidableEq, Repr

/-- Behaviour of the transport during one `connect_device` call: outcome of the
transport disconnect inside the pre-existing-connection teardown (`None` =
no exception), outcome of the device connect, and outcome of
`subscribe_bluetooth_le_raw_advertisements` inside `_subscribe_notifications`. -/
structure ConnectBehavior where
  predisconnectError : Option String
  connectOutcome : ConnectOutcome
  subscribeError : Option String
deriving DecidableEq, Repr

/-- Result of one manager operation: the value returned or exception raised,
the manager state afterwards, and the transport calls issued. -/
structure OpResult where
  result : Except String Unit
  state : MgrState
  trace : List TransportCall
deriving Repr

/-- Embeds `ConnectionManager.disconnect_device` (lines 123-151).
If no entry exists it logs and returns. Otherwise it sets
`connection.notification_callback = None` (a mutation of the record about to
be deleted; the closure installed on the transport is untouched), calls
`client.bluetooth_device_disconnect` (any exception is caught and logged,
`transportError` is its message), and in `finally` deletes the registry entry.
The entry removal and the `None` return thus do not depend on
`transportError`. -/
def disconnect_device (st : MgrState) (client_id : String)
    (transportError : Option String) : OpResult :=
  match lookupConn st.conns client_id with
  | none => { result := .ok (), state := st, trace := [] }
  | some c =>
      { result := .ok ()
        state := { conns := eraseConn st.conns client_id, subs := st.subs }
        trace := [.deviceDisconnect c.mac_address] }

/-- Embeds `ConnectionManager.connect_device` (lines 49-121) together with
`_subscribe_notifications` (lines 205-246), which it calls.
Control flow of the source: first, if a connection exists for `client_id`,
`disconnect_device` is awaited; then the device connect is attempted under
`asyncio.wait_for`; on success, if a callback was supplied, the notification
closure is installed via `subscribe_bluetooth_le_raw_advertisements` (a failure
there raises `RuntimeError("Subscription failed: ...")`, which the outer
`except Exception` converts to `RuntimeError("Connection failed: ...")`);
only then is the new `ActiveConnection` stored. On `asyncio.TimeoutError` the
code raises `RuntimeError("Connection timeout - ...")`. No error path performs
any further registry mutation or transport call. -/
def connect_device (st : MgrState) (client_id mac_address proxy_name : String)
    (client : Nat) (service_uuid notify_char_uuid write_char_uuid : String)
    (device_name : Option String) (notification_callback : Option Nat)
    (beh : ConnectBehavior) : OpResult :=
  let pre :=
    if (lookupConn st.conns client_id).isSome then
      disconnect_device st client_id beh.predisconnectError
    else
      { result := .ok (), state := st, trace := [] }
  let st1 := pre.state
  let tr1 := pre.trace ++ [TransportCall.deviceConnect mac_address]
  match beh.connectOutcome with
  | .timeout =>
      { result := .error "Connection timeout - device may be out of range or busy"
        state := st1, trace := tr1 }
  | .fail m =>
      { result := .error ("Connection failed: " ++ m), state := st1, trace := tr1 }
  | .ok =>
      match notification_callback with
      | some cb =>
          let tr2 := tr1 ++ [TransportCall.subscribeRawAdvertisements cb]
          match beh.subscribeError with
          | some m =>
              { result := .error ("Connection failed: Subscription failed: " ++ m)
                state := st1, trace := tr2 }
          | none =>
              { result := .ok ()
                state :=
                  { conns := insertConn st1.conns client_id
                      { mac_address := mac_address, device_name := device_name
                        proxy_name := proxy_name, client := client
                        service_uuid := service_uuid
                        notify_char_uuid := notify_char_uuid
                        write_char_uuid := write_char_uuid
                        notification_callback := some cb }
                    subs := st1.subs ++ [{ mac := mac_address
                                           charUuid := notify_char_uuid
                                           callback := cb }] }
                trace := tr2 }
      | none =>
          { result := .ok ()
            state :=
              { conns := insertConn st1.conns client_id
                  { mac_address := mac_address, device_name := device_name
                    proxy_name := proxy_name, client := client
                    service_uuid := service_uuid
                    notify_char_uuid := notify_char_uuid
                    write_char_uuid := write_char_uuid
                    notification_callback := none }
                subs := st1.subs }
            trace := tr1 }

/-- Embeds `ConnectionManager.write_characteristic` (lines 153-203).
With no registry entry it raises `ValueError("No active connection - connect
first")` before touching the transport. Otherwise it (possibly) logs a UUID
mismatch warning — no state effect — and calls `bluetooth_gatt_write` with
handle 0 and the byte list; a transport exception (message `writeError`)
becomes `RuntimeError("Write failed: ...")`. The registry is never mutated. -/
def write_characteristic (st : MgrState) (client_id characteristic_uuid : String)
    (data : List Nat) (with_response : Bool) (writeError : Option String) :
    OpResult :=
  match lookupConn st.conns client_id with
  | none =>
      { result := .error "No active connection - connect first", state := st, trace := [] }
  | some c =>
      let call := TransportCall.gattWrite c.mac_address 0 data with_response
      match writeError with
      | some m =>
          { result := .error ("Write failed: " ++ m), state := st, trace := [call] }
      | none =>
          { result := .ok (), state := st, trace := [call] }

/-- ASCII uppercase of one character, as Python `str.upper` acts on the ASCII
range (the only range reachable in MAC strings and addresses compared here). -/
def pyUpperChar (c : Char) : Char :=
  if 'a' ≤ c ∧ c ≤ 'z' then Char.ofNat (c.toNat - 32) else c

/-- Python `s.upper()` restricted to the ASCII range. -/
def pyUpper (s : String) : String :=
  ⟨s.data.map pyUpperChar⟩

/-- Embeds the `on_notification` closure created inside
`_subscribe_notifications` (lines 225-235): on a transport event for
`address` with payload `data`, when `address.upper() == mac_address.upper()`
the closure invokes the captured `callback` with the captured characteristic
UUID and the payload bytes; otherwise nothing is forwarded. The closure reads
only its captured variables — it never consults the registry or the
`notification_callback` field of the (possibly deleted) `ActiveConnection`. -/
def on_notification (sub : NotifySub) (address : String) (data : List Nat) :
    Option (String × List Nat) :=
  if pyUpper address = pyUpper sub.mac then some (sub.charUuid, data) else none

/-- One registry operation, with the transport behaviour it observed. -/
inductive MgrOp where
  | connect (client_id mac_address proxy_name : String) (client : Nat)
      (service_uuid notify_char_uuid write_char_uuid : String)
      (device_name : Option String) (notification_callback : Option Nat)
      (beh : ConnectBehavior)
  | disconnect (client_id : String) (transportError : Option String)
  | write (client_id characteristic_uuid : String) (data : List Nat)
      (with_response : Bool) (writeError : Option String)

/-- State reached after one registry operation. -/
def applyOp (st : MgrState) : MgrOp → MgrState
  | .connect cid mac proxy cl su nu wu dn cb beh =>
      (connect_device st cid mac proxy cl su nu wu dn cb beh).state
  | .disconnect cid e => (disconnect_device st cid e).state
  | .write cid uuid data wr e => (write_characteristic st cid uuid data wr e).state

/-- Manager state after a sequence of registry operations, starting from the
freshly constructed manager (`self.connections = {}`). -/
def runOps (ops : List MgrOp) : MgrState :=
  ops.foldl applyOp { conns := [], subs := [] }

/-! MAC address validation embedding (schemas.py, `validate_mac_address` of
`DiscoveredDevice`, lines 32-42; the validators of the other models are
textually identical). -/

/-- Hexadecimal digit in the character class `[0-9A-F]` of the source regex. -/
def isHexUp (c : Char) : Bool :=
  ('0' ≤ c && c ≤ '9') || ('A' ≤ c && c ≤ 'F')

/-- Python `v.replace("-", ":")` for the single-character pattern. -/
def replaceDashChar (c : Char) : Char :=
  if c = '-' then ':' else c

/-- The normalization step of `validate_mac_address`:
`v = v.upper().replace("-", ":")`. -/
def normalizeMac (v : String) : String :=
  ⟨(v.data.map pyUpperChar).map replaceDashChar⟩

/-- One step of the regex `([0-9A-F]{2}:)`: consume two hex digits and a
colon, returning the remaining input. -/
def hexPairColon : List Char → Option (List Char)
  | a :: b :: c :: rest =>
      if isHexUp a && isHexUp b && (c == ':') then some rest else none
  | _ => none

/-- The final `[0-9A-F]{2}` of the regex against the remaining input, which
must then be exhausted. -/
def hexPairEnd : List Char → Bool
  | [a, b] => isHexUp a && isHexUp b
  | _ => false

/-- The regex `([0-9A-F]{2}:){5}[0-9A-F]{2}` matched against the whole
character list. -/
def macRegexCore (cs : List Char) : Bool :=
  match ((((hexPairColon cs).bind hexPairColon).bind hexPairColon).bind
      hexPairColon).bind hexPairColon with
  | some r => hexPairEnd r
  | none => false

/-- Python `re.match(r"^([0-9A-F]{2}:){5}[0-9A-F]{2}$", v)` as a Boolean:
the `$` anchor of Python `re` (without `MULTILINE`) matches at the end of the
string or just before a newline at the end of the string, so the regex matches
the full string or the full string minus one trailing newline. -/
def macRegexMatch (s : String) : Bool :=
  macRegexCore s.data ||
    (s.data.getLast? == some '\n' && macRegexCore s.data.dropLast)

/-- Embeds `validate_mac_address` (schemas.py lines 34-42): normalize, then
return the normalized value if the regex matches, else raise `ValueError`. -/
def validate_mac_address (v : String) : Except String String :=
  let n := normalizeMac v
  if macRegexMatch n then .ok n
  else .error "Invalid MAC address format. Expected format: AA:BB:CC:DD:EE:FF"

/-- Follows the spec's words (a second definition, for comparison with the
source's regex matcher): the string is exactly six pairs of hexadecimal digits
separated by colons. -/
def sixHexPairs (s : String) : Bool :=
  match s.data with
  | [a1, a2, s1, b1, b2, s2, c1, c2, s3, d1, d2, s4, e1, e2, s5, f1, f2] =>
      isHexUp a1 && isHexUp a2 && (s1 == ':') &&
      isHexUp b1 && isHexUp b2 && (s2 == ':') &&
      isHexUp c1 && isHexUp c2 && (s3 == ':') &&
      isHexUp d1 && isHexUp d2 && (s4 == ':') &&
      isHexUp e1 && isHexUp e2 && (s5 == ':') &&
      isHexUp f1 && isHexUp f2
  | _ => false

/-- Six colon-separated hexadecimal pairs, optionally followed by a single
trailing newline (the extra shape the Python `$` anchor lets through). -/
def sixHexPairsOptNL (s : String) : Bool :=
  sixHexPairs s || (s.data.getLast? == some '\n' && sixHexPairs ⟨s.data.dropLast⟩)

/-! WebSocket session handler embedding (ble_proxy.py, `BLEProxyHandler`).
The `app.schemas.ble` message classes are not under `src/`, so the per-command
field requirements are modelled from the spec (the handler code itself is
embedded from the source). The `ble_manager` transport object is likewise
external; each of its operations is represented by an explicit outcome in a
behaviour record, and the calls made to it are recorded in a trace. -/

/-- View of the session handler's mutable state: the receive-loop flag
`self.running` and the observable attributes of `self.ble_manager`
(`is_connected`, `device_address`, and the advertised device name). -/
structure SessionState where
  running : Bool
  mgrConnected : Bool
  mgrAddress : Option String
  mgrName : Option String
deriving DecidableEq, Repr

/-- The `device_info` dict returned by `ble_manager.connect`
(keys `name`, `address`, `services`). -/
structure DeviceInfo where
  name : String
  address : String
  services : List String
deriving DecidableEq, Repr

/-- Events sent to the WebSocket client (the `BLE*Message` responses built in
ble_proxy.py; fields as constructed there). Device records in `discovered` are
kept opaque as strings. -/
inductive Event where
  | connected (device_name : String) (device_address : String) (services : List String)
  | disconnected (reason : String)
  | status (connected : Bool) (device_name : Option String) (message : String)
  | error (msg : String)
  | notification (characteristic_uuid : String) (data : List Nat)
  | discovered (devices : List String)
deriving DecidableEq, Repr

/-- Recognizer for error events. -/
def isErrorEvent : Event → Bool
  | .error _ => true
  | _ => false

/-- Calls the handler issues to `self.ble_manager`, in program order. -/
inductive ManagerCall where
  | mconnect (service_uuid device_address : Option String)
  | mdisconnect
  | mwrite (characteristic_uuid : String) (data : List Nat) (with_response : Bool)
  | msubscribe (characteristic_uuid : String)
  | munsubscribe (characteristic_uuid : String)
  | mdiscover (service_uuid : Option String) (timeout : Int)
deriving DecidableEq, Repr

/-- Recognizer for transport write invocations. -/
def isMWrite : ManagerCall → Bool
  | .mwrite _ _ _ => true
  | _ => false

/-- Outcomes of the `ble_manager` operations during one frame (`.error` means
the awaited call raised, with the exception's message). -/
structure MgrBehavior where
  connectResult : Except String DeviceInfo
  disconnectResult : Except String Unit
  writeResult : Except String Unit
  subscribeResult : Except String Unit
  unsubscribeResult : Except String Unit
  discoverResult : Except String (List String)
deriving Repr

/-- Result of handling one frame: events sent to the client, manager calls
issued, and the session state afterwards. -/
structure HandlerResult where
  events : List Event
  calls : List ManagerCall
  state : SessionState
deriving Repr

/-- Embeds `BLEProxyHandler.send_status` (ble_proxy.py lines 237-244): the
`device_name` field of the Status event is `self.ble_manager.device_address`
when the manager reports a connection, else `None`. -/
def send_status (st : SessionState) (connected : Bool) (message : String) : Event :=
  .status connected (if st.mgrConnected then st.mgrAddress else none) message

/-- Embeds `handle_connect` (lines 123-139). -/
def handle_connect (st : SessionState) (service_uuid device_address : Option String)
    (beh : MgrBehavior) : HandlerResult :=
  match beh.connectResult with
  | .ok info =>
      { events := [.connected info.name info.address info.services]
        calls := [.mconnect service_uuid device_address]
        state := { st with mgrConnected := true, mgrAddress := some info.address
                           mgrName := some info.name } }
  | .error e =>
      { events := [.error ("Connect failed: " ++ e)]
        calls := [.mconnect service_uuid device_address], state := st }

/-- Embeds `handle_disconnect` (lines 141-150). -/
def handle_disconnect (st : SessionState) (beh : MgrBehavior) : HandlerResult :=
  match beh.disconnectResult with
  | .ok _ =>
      { events := [.disconnected "User requested disconnect"]
        calls := [.mdisconnect]
        state := { st with mgrConnected := false } }
  | .error e =>
      { events := [.error ("Disconnect failed: " ++ e)], calls := [.mdisconnect], state := st }

/-- Sextet value of a base64 alphabet character (`A-Z a-z 0-9 + /`). -/
def b64CharVal (c : Char) : Option Nat :=
  if 'A' ≤ c && c ≤ 'Z' then some (c.toNat - 65)
  else if 'a' ≤ c && c ≤ 'z' then some (c.toNat - 97 + 26)
  else if '0' ≤ c && c ≤ '9' then some (c.toNat - 48 + 52)
  else if c = '+' then some 62
  else if c = '/' then some 63
  else none

/-- Three bytes from a complete group of four sextets. -/
def b64Emit3 : List Nat → List Nat
  | [a, b, c, d] => [a * 4 + b / 16, (b % 16) * 16 + c / 4, (c % 4) * 64 + d]
  | _ => []

/-- One or two bytes from a padded final group of two or three sextets. -/
def b64Partial : List Nat → List Nat
  | [a, b] => [a * 4 + b / 16]
  | [a, b, c] => [a * 4 + b / 16, (b % 16) * 16 + c / 4]
  | _ => []

/-- The per-character loop of CPython's lenient `binascii.a2b_base64`
(`strict_mode=False`), with `quad` the pending sextets of the current group
and `pads` the padding characters seen since the last data character:
non-alphabet characters are discarded; a `=` is discarded while fewer than two
sextets are pending, counts as padding otherwise, and decoding ends (ignoring
the rest) once sextets plus padding complete a group of four; a data character
resets the padding count and emits three bytes whenever it completes a group;
leftover pending sextets at the end of input raise `binascii.Error` (one
sextet: "Invalid base64-encoded string: ..."; two or three: "Incorrect
padding"; messages abbreviated to their leading phrase). -/
def b64Loop : List Char → List Nat → Nat → Except String (List Nat)
  | [], quad, _pads =>
      if quad.length == 0 then .ok []
      else if quad.length == 1 then .error "Invalid base64-encoded string"
      else .error "Incorrect padding"
  | c :: rest, quad, pads =>
      if c = '=' then
        if 2 ≤ quad.length then
          if quad.length + (pads + 1) == 4 then .ok (b64Partial quad)
          else b64Loop rest quad (pads + 1)
        else b64Loop rest quad pads
      else
        match b64CharVal c with
        | some v =>
            if quad.length == 3 then
              match b64Loop rest [] 0 with
              | .ok tail => .ok (b64Emit3 (quad ++ [v]) ++ tail)
              | .error e => .error e
            else b64Loop rest (quad ++ [v]) 0
        | none => b64Loop rest quad pads

/-- Models Python `base64.b64decode` with its default `validate=False`
(ble_proxy.py line 156): the lenient `binascii.a2b_base64` over the
characters of the payload string. -/
def b64decode (s : String) : Except String (List Nat) :=
  b64Loop s.data [] 0

/-- Embeds `handle_write` (lines 152-172): decode the base64 payload, write it
through the manager, confirm with a Status event; any exception in the block
(including the base64 decode) is caught and sent as `"Write failed: ..."`. -/
def handle_write (st : SessionState) (characteristic_uuid dataField : String)
    (with_response : Bool) (beh : MgrBehavior) : HandlerResult :=
  match b64decode dataField with
  | .error e =>
      { events := [.error ("Write failed: " ++ e)], calls := [], state := st }
  | .ok bs =>
      match beh.writeResult with
      | .ok _ =>
          let n := bs.length
          { events := [send_status st true (s!"Wrote {n} bytes to {characteristic_uuid}")]
            calls := [.mwrite characteristic_uuid bs with_response], state := st }
      | .error e =>
          { events := [.error ("Write failed: " ++ e)]
            calls := [.mwrite characteristic_uuid bs with_response], state := st }

/-- Embeds `handle_subscribe` (lines 174-195). -/
def handle_subscribe (st : SessionState) (characteristic_uuid : String)
    (beh : MgrBehavior) : HandlerResult :=
  match beh.subscribeResult with
  | .ok _ =>
      { events := [send_status st true ("Subscribed to " ++ characteristic_uuid)]
        calls := [.msubscribe characteristic_uuid], state := st }
  | .error e =>
      { events := [.error ("Subscribe failed: " ++ e)]
        calls := [.msubscribe characteristic_uuid], state := st }

/-- Embeds `handle_unsubscribe` (lines 197-208). -/
def handle_unsubscribe (st : SessionState) (characteristic_uuid : String)
    (beh : MgrBehavior) : HandlerResult :=
  match beh.unsubscribeResult with
  | .ok _ =>
      { events := [send_status st true ("Unsubscribed from " ++ characteristic_uuid)]
        calls := [.munsubscribe characteristic_uuid], state := st }
  | .error e =>
      { events := [.error ("Unsubscribe failed: " ++ e)]
        calls := [.munsubscribe characteristic_uuid], state := st }

/-- Embeds `handle_discover` (lines 210-222). -/
def handle_discover (st : SessionState) (service_uuid : Option String)
    (timeout : Int) (beh : MgrBehavior) : HandlerResult :=
  match beh.discoverResult with
  | .ok ds =>
      { events := [.discovered ds], calls := [.mdiscover service_uuid timeout], state := st }
  | .error e =>
      { events := [.error ("Discovery failed: " ++ e)]
        calls := [.mdiscover service_uuid timeout], state := st }

/-- JSON values, as produced by `json.loads`. -/
inductive JVal where
  | jnull
  | jbool (b : Bool)
  | jnum (n : Int)
  | jstr (s : String)
  | jarr (elems : List JVal)
  | jobj (fields : List (String × JVal))

/-- Outcome of `json.loads(data)` on the raw frame text: a syntax error (with
the parser's message) or a parsed value. -/
inductive ParseResult where
  | malformed (detail : String)
  | parsed (v : JVal)

/-- Dict lookup `message.get(key)` on a parsed JSON object. -/
def getField (fields : List (String × JVal)) (k : String) : Option JVal :=
  match fields.find? (fun p => p.1 == k) with
  | some p => some p.2
  | none => none

/-- The field is present and a string. -/
def fieldIsStr (fields : List (String × JVal)) (k : String) : Bool :=
  match getField fields k with
  | some (.jstr _) => true
  | _ => false

/-- The field is absent, null, or a string (an `Optional[str]` field). -/
def fieldIsOptStr (fields : List (String × JVal)) (k : String) : Bool :=
  match getField fields k with
  | none => true
  | some .jnull => true
  | some (.jstr _) => true
  | _ => false

/-- The field is present and a Boolean. -/
def fieldIsBool (fields : List (String × JVal)) (k : String) : Bool :=
  match getField fields k with
  | some (.jbool _) => true
  | _ => false

/-- The field is present and a number. -/
def fieldIsNum (fields : List (String × JVal)) (k : String) : Bool :=
  match getField fields k with
  | some (.jnum _) => true
  | _ => false

/-- String field extraction (defaulting; used only where validation passed). -/
def getStrD (fields : List (String × JVal)) (k : String) : String :=
  match getField fields k with
  | some (.jstr s) => s
  | _ => ""

/-- Optional string field extraction. -/
def getStrOpt (fields : List (String × JVal)) (k : String) : Option String :=
  match getField fields k with
  | some (.jstr s) => some s
  | _ => none

/-- Boolean field extraction (defaulting; used only where validation passed). -/
def getBoolD (fields : List (String × JVal)) (k : String) : Bool :=
  match getField fields k with
  | some (.jbool b) => b
  | _ => false

/-- Numeric field extraction (defaulting; used only where validation passed). -/
def getNumD (fields : List (String × JVal)) (k : String) : Int :=
  match getField fields k with
  | some (.jnum n) => n
  | _ => 0

/-- Modelled from the spec: the `BLEConnectMessage` schema
(`app/schemas/ble.py` is not under `src/`); per spec §6, `connect` carries
optional `serviceUuid` and `deviceAddress`. -/
def validConnectMsg (fields : List (String × JVal)) : Bool :=
  fieldIsOptStr fields "serviceUuid" && fieldIsOptStr fields "deviceAddress"

/-- Modelled from the spec: `disconnect` carries no required fields. -/
def validDisconnectMsg (_fields : List (String × JVal)) : Bool :=
  true

/-- Modelled from the spec: `write` requires `characteristicUuid` (string),
`data` (base64 string) and `withResponse` (Boolean). -/
def validWriteMsg (fields : List (String × JVal)) : Bool :=
  fieldIsStr fields "characteristicUuid" && fieldIsStr fields "data" &&
    fieldIsBool fields "withResponse"

/-- Modelled from the spec: `subscribe` requires `characteristicUuid`. -/
def validSubscribeMsg (fields : List (String × JVal)) : Bool :=
  fieldIsStr fields "characteristicUuid"

/-- Modelled from the spec: `unsubscribe` requires `characteristicUuid`. -/
def validUnsubscribeMsg (fields : List (String × JVal)) : Bool :=
  fieldIsStr fields "characteristicUuid"

/-- Modelled from the spec: `discover` carries optional `serviceUuid` and a
required numeric `timeout`. -/
def validDiscoverMsg (fields : List (String × JVal)) : Bool :=
  fieldIsOptStr fields "serviceUuid" && fieldIsNum fields "timeout"

/-- Rendering of `msg_type` inside the `"Unknown message type: ..."` error
(Python `str()` of the value, abbreviated for composite values). -/
def jvalStr : Option JVal → String
  | none => "None"
  | some .jnull => "None"
  | some (.jbool true) => "True"
  | some (.jbool false) => "False"
  | some (.jnum n) => toString n
  | some (.jstr s) => s
  | some (.jarr _) => "<list>"
  | some (.jobj _) => "<dict>"

/-- The fixed error event produced when a `pydantic.ValidationError` is caught
(ble_proxy.py lines 118-119); the validation detail text is abbreviated. -/
def invalidFormat (st : SessionState) : HandlerResult :=
  { events := [.error "Invalid message format: validation error"], calls := [], state := st }

/-- Dispatch on a recognized-or-not `type` tag string, embedding the `elif`
chain of `handle_message` (lines 103-116); each branch first validates the
message against its schema (the `BLE*Message(**message)` construction) and on
failure produces the `ValidationError` path. -/
def dispatchTag (st : SessionState) (fields : List (String × JVal)) (tag : String)
    (beh : MgrBehavior) : HandlerResult :=
  if tag == "connect" then
    if validConnectMsg fields then
      handle_connect st (getStrOpt fields "serviceUuid") (getStrOpt fields "deviceAddress") beh
    else invalidFormat st
  else if tag == "disconnect" then
    if validDisconnectMsg fields then handle_disconnect st beh
    else invalidFormat st
  else if tag == "write" then
    if validWriteMsg fields then
      handle_write st (getStrD fields "characteristicUuid") (getStrD fields "data")
        (getBoolD fields "withResponse") beh
    else invalidFormat st
  else if tag == "subscribe" then
    if validSubscribeMsg fields then
      handle_subscribe st (getStrD fields "characteristicUuid") beh
    else invalidFormat st
  else if tag == "unsubscribe" then
    if validUnsubscribeMsg fields then
      handle_unsubscribe st (getStrD fields "characteristicUuid") beh
    else invalidFormat st
  else if tag == "discover" then
    if validDiscoverMsg fields then
      handle_discover st (getStrOpt fields "serviceUuid") (getNumD fields "timeout") beh
    else invalidFormat st
  else
    { events := [.error ("Unknown message type: " ++ tag)], calls := [], state := st }

/-- Embeds `handle_message` (lines 92-121) composed with the enclosing receive
loop's per-frame `except Exception` (lines 72-81): a JSON syntax error or a
`ValidationError` is caught inside `handle_message` and answered with one
error event; a non-dict frame makes `message.get` raise `AttributeError`,
which escapes `handle_message` and is converted to one error event by the
loop's catch; a non-string or missing `type` compares unequal to every
`BLEMessageType` value and lands in the `"Unknown message type"` branch. In
every case the loop then continues with the next frame. -/
def handle_message (st : SessionState) (frame : ParseResult) (beh : MgrBehavior) :
    HandlerResult :=
  match frame with
  | .malformed d =>
      { events := [.error ("Invalid JSON: " ++ d)], calls := [], state := st }
  | .parsed (.jobj fields) =>
      match getField fields "type" with
      | some (.jstr tag) => dispatchTag st fields tag beh
      | other =>
          { events := [.error ("Unknown message type: " ++ jvalStr other)]
            calls := [], state := st }
  | .parsed _ =>
      { events := [.error "Error handling message: AttributeError"], calls := [], state := st }

/-- A frame that is malformed JSON or violates the command schema: a syntax
error, a non-object value, a missing/non-string/unrecognized `type` tag, or a
recognized tag whose required fields are missing or mistyped. -/
def decodeFails (frame : ParseResult) : Bool :=
  match frame with
  | .malformed _ => true
  | .parsed (.jobj fields) =>
      match getField fields "type" with
      | some (.jstr tag) =>
          if tag == "connect" then !validConnectMsg fields
          else if tag == "disconnect" then !validDisconnectMsg fields
          else if tag == "write" then !validWriteMsg fields
          else if tag == "subscribe" then !validSubscribeMsg fields
          else if tag == "unsubscribe" then !validUnsubscribeMsg fields
          else if tag == "discover" then !validDiscoverMsg fields
          else true
      | _ => true
  | .parsed _ => true

/-- A sample session-handler state used in concrete instantiations. -/
def sampleSession : SessionState :=
  { running := true, mgrConnected := false, mgrAddress := none, mgrName := none }

/-- A sample manager behaviour (every transport operation succeeds) used in
concrete instantiations. -/
def sampleBeh : MgrBehavior :=
  { connectResult := .ok { name := "dev", address := "AA:BB:CC:DD:EE:FF", services := [] }
    disconnectResult := .ok (), writeResult := .ok (), subscribeResult := .ok ()
    unsubscribeResult := .ok (), discoverResult := .ok [] }

/-- A sample `ActiveConnection` used in concrete instantiations. -/
def sampleConn : ActiveConnection :=
  { mac_address := "AA:BB:CC:DD:EE:FF", device_name := none, proxy_name := "proxy"
    client := 0, service_uuid := "svc", notify_char_uuid := "ntf"
    write_char_uuid := "wrt", notification_callback := none }

/-- A sample manager state holding one live connection for session `"s"`. -/
def sampleMgr : MgrState :=
  { conns := [("s", sampleConn)], subs := [] }

/-! Registry dictionary lemmas. -/

theorem lookupConn_erase_self (l : Conns) (k : String) :
    lookupConn (eraseConn l k) k = none := by
  induction l with
  | nil => rfl
  | cons p t ih =>
      by_cases h : p.1 = k
      · simpa [eraseConn, h] using ih
      · simp [eraseConn, lookupConn, h, ih]

theorem lookupConn_erase_ne (l : Conns) {k k' : String} (h : k' ≠ k) :
    lookupConn (eraseConn l k) k' = lookupConn l k' := by
  induction l with
  | nil => rfl
  | cons p t ih =>
      by_cases hk : p.1 = k
      · have hkk : k ≠ k' := fun e => h e.symm
        have : p.1 ≠ k' := hk ▸ hkk
        simp [eraseConn, lookupConn, hk, this, hkk, ih]
      · by_cases hk' : p.1 = k'
        · simp [eraseConn, lookupConn, hk, hk', h, ih]
        · simp [eraseConn, lookupConn, hk, hk', ih]

theorem eraseConn_idem (l : Conns) (k : String) :
    eraseConn (eraseConn l k) k = eraseConn l k := by
  induction l with
  | nil => rfl
  | cons p t ih =>
      by_cases h : p.1 = k
      · simp [eraseConn, h, ih]
      · simp [eraseConn, h, ih]

theorem lookupConn_append (a b : Conns) (k : String) :
    lookupConn (a ++ b) k =
      match lookupConn a k with
      | some c => some c
      | none => lookupConn b k := by
  induction a with
  | nil => rfl
  | cons p t ih =>
      by_cases h : p.1 = k
      · simp [lookupConn, h]
      · simp [lookupConn, h, ih]

theorem lookupConn_insert_self (l : Conns) (k : String) (c : ActiveConnection) :
    lookupConn (insertConn l k c) k = some c := by
  simp [insertConn, lookupConn_append, lookupConn_erase_self, lookupConn]

theorem lookupConn_insert_ne (l : Conns) {k k' : String} (c : ActiveConnection)
    (h : k' ≠ k) :
    lookupConn (insertConn l k c) k' = lookupConn l k' := by
  have hne : k ≠ k' := fun e => h e.symm
  simp [insertConn, lookupConn_append, lookupConn_erase_ne l h, lookupConn, hne]
  cases lookupConn l k' <;> simp

theorem countKey_erase_self (l : Conns) (k : String) :
    countKey (eraseConn l k) k = 0 := by
  induction l with
  | nil => rfl
  | cons p t ih =>
      by_cases h : p.1 = k
      · simpa [eraseConn, h] using ih
      · simp [eraseConn, countKey, h, ih]

theorem countKey_erase_ne (l : Conns) {k k' : String} (h : k' ≠ k) :
    countKey (eraseConn l k) k' = countKey l k' := by
  induction l with
  | nil => rfl
  | cons p t ih =>
      by_cases hk : p.1 = k
      · have hkk : k ≠ k' := fun e => h e.symm
        have : p.1 ≠ k' := hk ▸ hkk
        simp [eraseConn, countKey, hk, this, hkk, ih]
      · simp [eraseConn, countKey, hk, ih]

theorem countKey_append (a b : Conns) (k : String) :
    countKey (a ++ b) k = countKey a k + countKey b k := by
  induction a with
  | nil => simp [countKey]
  | cons p t ih => simp [countKey, ih]; omega

theorem countKey_insert_self (l : Conns) (k : String) (c : ActiveConnection) :
    countKey (insertConn l k c) k = 1 := by
  simp [insertConn, countKey_append, countKey_erase_self, countKey]

theorem countKey_insert_ne (l : Conns) {k k' : String} (c : ActiveConnection)
    (h : k' ≠ k) :
    countKey (insertConn l k c) k' = countKey l k' := by
  have hne : k ≠ k' := fun e => h e.symm
  simp [insertConn, countKey_append, countKey_erase_ne l h, countKey, hne]

/-! Claim theorems about the connection registry. -/

/-- C4. A `write_characteristic` call for a session with no `ActiveConnection`
raises the not-connected `ValueError` before any transport interaction: the
result is the error, the transport-call trace is empty (in particular
`bluetooth_gatt_write` is never invoked), and the registry is unchanged. -/
theorem write_without_connection_not_connected (st : MgrState)
    (cid uuid : String) (data : List Nat) (wr : Bool) (e : Option String)
    (h : lookupConn st.conns cid = none) :
    write_characteristic st cid uuid data wr e =
      { result := .error "No active connection - connect first", state := st, trace := [] } := by
  simp [write_characteristic, h]

/-- Witness for `write_without_connection_not_connected` at a fresh session. -/
theorem write_without_connection_not_connected_witness :
    write_characteristic { conns := [], subs := [] } "session-1" "X" [1, 2, 3] true none =
      { result := .error "No active connection - connect first"
        state := { conns := [], subs := [] }, trace := [] } :=
  write_without_connection_not_connected { conns := [], subs := [] } "session-1" "X"
    [1, 2, 3] true none (by rfl)

/-- C5. When the transport does not complete the device connection within the
configured connection timeout (`asyncio.TimeoutError` from `asyncio.wait_for`
bounded by `settings.esphome_connection_timeout`), `connect_device` raises the
connection-timeout error, no `ActiveConnection` is stored for the session, the
entries of every other session are untouched, and for a session with no prior
connection the whole manager state is unchanged. -/
theorem connect_timeout_no_store (st : MgrState) (cid mac proxy : String)
    (cl : Nat) (su nu wu : String) (dn : Option String) (cb : Option Nat)
    (beh : ConnectBehavior) (ht : beh.connectOutcome = ConnectOutcome.timeout) :
    (connect_device st cid mac proxy cl su nu wu dn cb beh).result =
        Except.error "Connection timeout - device may be out of range or busy"
  ∧ lookupConn (connect_device st cid mac proxy cl su nu wu dn cb beh).state.conns cid = none
  ∧ (∀ k, k ≠ cid →
      lookupConn (connect_device st cid mac proxy cl su nu wu dn cb beh).state.conns k =
        lookupConn st.conns k)
  ∧ (lookupConn st.conns cid = none →
      (connect_device st cid mac proxy cl su nu wu dn cb beh).state = st) := by
  cases h : lookupConn st.conns cid with
  | none =>
      refine ⟨?_, ?_, ?_, ?_⟩ <;>
        simp [connect_device, h, ht]
  | some c =>
      refine ⟨?_, ?_, ?_, ?_⟩
      · simp [connect_device, disconnect_device, h, ht]
      · simp [connect_device, disconnect_device, h, ht, lookupConn_erase_self]
      · intro k hk
        simp [connect_device, disconnect_device, h, ht, lookupConn_erase_ne _ hk]
      · intro h0
        exact Option.noConfusion h0

/-- Witness for `connect_timeout_no_store` on a fresh manager (the
unchanged-other-sessions conjunct instantiated at the session `"other"`). -/
theorem connect_timeout_no_store_witness :
    (connect_device { conns := [], subs := [] } "s" "AA:BB:CC:DD:EE:FF" "proxy" 0
        "svc" "ntf" "wrt" none none
        { predisconnectError := none, connectOutcome := .timeout, subscribeError := none }).result =
        Except.error "Connection timeout - device may be out of range or busy"
  ∧ lookupConn (connect_device { conns := [], subs := [] } "s" "AA:BB:CC:DD:EE:FF" "proxy" 0
        "svc" "ntf" "wrt" none none
        { predisconnectError := none, connectOutcome := .timeout, subscribeError := none }).state.conns "s" = none
  ∧ lookupConn (connect_device { conns := [], subs := [] } "s" "AA:BB:CC:DD:EE:FF" "proxy" 0
        "svc" "ntf" "wrt" none none
        { predisconnectError := none, connectOutcome := .timeout, subscribeError := none }).state.conns "other" =
      lookupConn ([] : Conns) "other"
  ∧ (connect_device { conns := [], subs := [] } "s" "AA:BB:CC:DD:EE:FF" "proxy" 0
        "svc" "ntf" "wrt" none none
        { predisconnectError := none, connectOutcome := .timeout, subscribeError := none }).state =
      { conns := [], subs := [] } :=
  ⟨(connect_timeout_no_store { conns := [], subs := [] } "s" "AA:BB:CC:DD:EE:FF" "proxy" 0
      "svc" "ntf" "wrt" none none
      { predisconnectError := none, connectOutcome := .timeout, subscribeError := none }
      (by rfl)).1,
   (connect_timeout_no_store { conns := [], subs := [] } "s" "AA:BB:CC:DD:EE:FF" "proxy" 0
      "svc" "ntf" "wrt" none none
      { predisconnectError := none, connectOutcome := .timeout, subscribeError := none }
      (by rfl)).2.1,
   (connect_timeout_no_store { conns := [], subs := [] } "s" "AA:BB:CC:DD:EE:FF" "proxy" 0
      "svc" "ntf" "wrt" none none
      { predisconnectError := none, connectOutcome := .timeout, subscribeError := none }
      (by rfl)).2.2.1 "other" (by decide),
   (connect_timeout_no_store { conns := [], subs := [] } "s" "AA:BB:CC:DD:EE:FF" "proxy" 0
      "svc" "ntf" "wrt" none none
      { predisconnectError := none, connectOutcome := .timeout, subscribeError := none }
      (by rfl)).2.2.2 (by rfl)⟩

/-- C6. `disconnect_device` never raises (teardown errors are swallowed: the
result does not depend on the transport error), afterwards the registry holds
no entry for the session — the `finally` clause removes the entry even when
the transport disconnect raised — and with no existing connection the call is
a no-op rather than an error. -/
theorem disconnect_always_clears_entry (st : MgrState) (cid : String)
    (e : Option String) :
    (disconnect_device st cid e).result = .ok ()
  ∧ lookupConn (disconnect_device st cid e).state.conns cid = none
  ∧ (∀ k, k ≠ cid →
      lookupConn (disconnect_device st cid e).state.conns k = lookupConn st.conns k)
  ∧ (lookupConn st.conns cid = none →
      disconnect_device st cid e = { result := .ok (), state := st, trace := [] }) := by
  cases h : lookupConn st.conns cid with
  | none =>
      refine ⟨?_, ?_, ?_, ?_⟩ <;> simp [disconnect_device, h]
  | some c =>
      refine ⟨?_, ?_, ?_, ?_⟩
      · simp [disconnect_device, h]
      · simp [disconnect_device, h, lookupConn_erase_self]
      · intro k hk
        simp [disconnect_device, h, lookupConn_erase_ne _ hk]
      · intro h0
        exact Option.noConfusion h0

/-- Witness for `disconnect_always_clears_entry`: a session with a live
connection whose transport disconnect raises (the unchanged-other-sessions
conjunct instantiated at the session `"other"`). -/
theorem disconnect_always_clears_entry_witness :
    (disconnect_device sampleMgr "s" (some "transport disconnect raised")).result = .ok ()
  ∧ lookupConn (disconnect_device sampleMgr "s"
        (some "transport disconnect raised")).state.conns "s" = none
  ∧ lookupConn (disconnect_device sampleMgr "s"
        (some "transport disconnect raised")).state.conns "other" =
      lookupConn sampleMgr.conns "other" :=
  ⟨(disconnect_always_clears_entry sampleMgr "s" (some "transport disconnect raised")).1,
   (disconnect_always_clears_entry sampleMgr "s" (some "transport disconnect raised")).2.1,
   (disconnect_always_clears_entry sampleMgr "s"
      (some "transport disconnect raised")).2.2.1 "other" (by decide)⟩

theorem countKey_erase_le_one (l : Conns) (k' k : String)
    (h : countKey l k ≤ 1) : countKey (eraseConn l k') k ≤ 1 := by
  by_cases hk : k = k'
  · subst hk
    simp [countKey_erase_self]
  · rw [countKey_erase_ne l hk]
    exact h

theorem countKey_insert_le_one (l : Conns) (k' : String) (c : ActiveConnection)
    (k : String) (h : countKey l k ≤ 1) : countKey (insertConn l k' c) k ≤ 1 := by
  by_cases hk : k = k'
  · subst hk
    simp [countKey_insert_self]
  · rw [countKey_insert_ne l c hk]
    exact h

theorem countKey_connect_le (st : MgrState) (cid mac proxy : String) (cl : Nat)
    (su nu wu : String) (dn : Option String) (cb : Option Nat)
    (beh : ConnectBehavior) (k : String) (hst : countKey st.conns k ≤ 1) :
    countKey (connect_device st cid mac proxy cl su nu wu dn cb beh).state.conns k ≤ 1 := by
  cases h : lookupConn st.conns cid <;>
    cases hco : beh.connectOutcome <;>
      cases cb <;>
        cases hse : beh.subscribeError <;>
          simp [connect_device, disconnect_device, h, hco, hse] <;>
            first
              | exact hst
              | exact countKey_erase_le_one _ _ _ hst
              | exact countKey_insert_le_one _ _ _ _ hst
              | exact countKey_insert_le_one _ _ _ _ (countKey_erase_le_one _ _ _ hst)

theorem countKey_applyOp_le (st : MgrState) (op : MgrOp) (k : String)
    (hst : ∀ k, countKey st.conns k ≤ 1) :
    countKey (applyOp st op).conns k ≤ 1 := by
  cases op with
  | connect cid mac proxy cl su nu wu dn cb beh =>
      exact countKey_connect_le st cid mac proxy cl su nu wu dn cb beh k (hst k)
  | disconnect cid e =>
      cases h : lookupConn st.conns cid <;>
        simp [applyOp, disconnect_device, h] <;>
          first
            | exact hst k
            | exact countKey_erase_le_one _ _ _ (hst k)
  | write cid uuid data wr e =>
      cases h : lookupConn st.conns cid <;>
        cases e <;>
          simp [applyOp, write_characteristic, h] <;> exact hst k

theorem countKey_foldl_le (ops : List MgrOp) :
    ∀ st : MgrState, (∀ k, countKey st.conns k ≤ 1) →
      ∀ k, countKey (ops.foldl applyOp st).conns k ≤ 1 := by
  induction ops with
  | nil =>
      intro st hst k
      simpa using hst k
  | cons op t ih =>
      intro st hst k
      exact ih (applyOp st op) (fun k' => countKey_applyOp_le st op k' hst) k

/-- C1. The registry holds at most one `ActiveConnection` per session
identifier under every sequence of registry operations; moreover a
`connect_device` issued while a connection already exists first tears the
existing connection down (its transport disconnect precedes the new transport
connect in the trace) and afterwards exactly one `ActiveConnection` — the new
one — is registered for the session. -/
theorem registry_at_most_one_connection :
    (∀ ops : List MgrOp, ∀ k, countKey (runOps ops).conns k ≤ 1)
  ∧ (∀ (st : MgrState) (cid mac proxy : String) (cl : Nat) (su nu wu : String)
       (dn : Option String) (beh : ConnectBehavior) (c : ActiveConnection),
      lookupConn st.conns cid = some c →
      beh.connectOutcome = ConnectOutcome.ok →
      (connect_device st cid mac proxy cl su nu wu dn none beh).trace =
          [TransportCall.deviceDisconnect c.mac_address, TransportCall.deviceConnect mac]
        ∧ countKey (connect_device st cid mac proxy cl su nu wu dn none beh).state.conns cid = 1
        ∧ lookupConn (connect_device st cid mac proxy cl su nu wu dn none beh).state.conns cid =
            some { mac_address := mac, device_name := dn, proxy_name := proxy, client := cl
                   service_uuid := su, notify_char_uuid := nu, write_char_uuid := wu
                   notification_callback := none }) := by
  constructor
  · intro ops k
    exact countKey_foldl_le ops { conns := [], subs := [] } (by intro k'; simp [countKey]) k
  · intro st cid mac proxy cl su nu wu dn beh c h hok
    refine ⟨?_, ?_, ?_⟩ <;>
      simp [connect_device, disconnect_device, h, hok, countKey_insert_self,
        lookupConn_insert_self]

/-- Witness for `registry_at_most_one_connection`: two successive connects on
session `"s"`, and the replace-semantics at a state holding a connection. -/
theorem registry_at_most_one_connection_witness :
    countKey (runOps
      [MgrOp.connect "s" "AA:BB:CC:DD:EE:FF" "proxy" 0 "svc" "ntf" "wrt" none none
          { predisconnectError := none, connectOutcome := .ok, subscribeError := none },
       MgrOp.connect "s" "11:22:33:44:55:66" "proxy" 0 "svc" "ntf" "wrt" none none
          { predisconnectError := none, connectOutcome := .ok, subscribeError := none }]).conns
      "s" ≤ 1
  ∧ ((connect_device sampleMgr "s" "11:22:33:44:55:66" "proxy" 0 "svc" "ntf" "wrt" none none
        { predisconnectError := none, connectOutcome := .ok, subscribeError := none }).trace =
        [TransportCall.deviceDisconnect sampleConn.mac_address,
         TransportCall.deviceConnect "11:22:33:44:55:66"]
      ∧ countKey (connect_device sampleMgr "s" "11:22:33:44:55:66" "proxy" 0 "svc" "ntf" "wrt"
          none none { predisconnectError := none, connectOutcome := .ok
                      subscribeError := none }).state.conns "s" = 1
      ∧ lookupConn (connect_device sampleMgr "s" "11:22:33:44:55:66" "proxy" 0 "svc" "ntf" "wrt"
          none none { predisconnectError := none, connectOutcome := .ok
                      subscribeError := none }).state.conns "s" =
          some { mac_address := "11:22:33:44:55:66", device_name := none, proxy_name := "proxy"
                 client := 0, service_uuid := "svc", notify_char_uuid := "ntf"
                 write_char_uuid := "wrt", notification_callback := none }) :=
  ⟨registry_at_most_one_connection.1 _ "s",
   registry_at_most_one_connection.2 sampleMgr "s" "11:22:33:44:55:66" "proxy" 0 "svc" "ntf"
     "wrt" none { predisconnectError := none, connectOutcome := .ok, subscribeError := none }
     sampleConn (by rfl) (by rfl)⟩

/-- C7 counterexample. A connect whose transport-level device connection
succeeds but whose notification-subscription step fails raises
`"Connection failed: Subscription failed: ..."` and stores no
`ActiveConnection`, but the trace contains no transport disconnect at all for
the partially-established connection (while the device connect did happen):
the claim that the transport disconnect is performed on this error path is
false of the code. -/
theorem connect_subscribe_failure_no_disconnect_cx :
    (connect_device { conns := [], subs := [] } "s" "AA:BB:CC:DD:EE:FF" "proxy" 0
        "svc" "ntf" "wrt" none (some 7)
        { predisconnectError := none, connectOutcome := .ok
          subscribeError := some "boom" }).result =
        Except.error "Connection failed: Subscription failed: boom"
  ∧ lookupConn (connect_device { conns := [], subs := [] } "s" "AA:BB:CC:DD:EE:FF" "proxy" 0
        "svc" "ntf" "wrt" none (some 7)
        { predisconnectError := none, connectOutcome := .ok
          subscribeError := some "boom" }).state.conns "s" = none
  ∧ (connect_device { conns := [], subs := [] } "s" "AA:BB:CC:DD:EE:FF" "proxy" 0
        "svc" "ntf" "wrt" none (some 7)
        { predisconnectError := none, connectOutcome := .ok
          subscribeError := some "boom" }).trace =
      [TransportCall.deviceConnect "AA:BB:CC:DD:EE:FF",
       TransportCall.subscribeRawAdvertisements 7]
  ∧ ((connect_device { conns := [], subs := [] } "s" "AA:BB:CC:DD:EE:FF" "proxy" 0
        "svc" "ntf" "wrt" none (some 7)
        { predisconnectError := none, connectOutcome := .ok
          subscribeError := some "boom" }).trace.filter isDeviceDisconnect = [])
  ∧ ((connect_device { conns := [], subs := [] } "s" "AA:BB:CC:DD:EE:FF" "proxy" 0
        "svc" "ntf" "wrt" none (some 7)
        { predisconnectError := none, connectOutcome := .ok
          subscribeError := some "boom" }).trace.filter isDeviceConnect ≠ []) := by
  refine ⟨rfl, rfl, rfl, rfl, ?_⟩
  decide

/-- C7 amended. A connect attempt that fails after the transport-level device
connection was established (the notification-subscription step raised) stores
no `ActiveConnection` and leaves the manager state unchanged, but the
transport disconnect is NOT invoked for the partially-established device
connection: the trace consists of the device connect and the subscription
attempt only, with no transport disconnect call — the device-level connection
is leaked on this error path. -/
theorem connect_subscribe_failure_leaks_connection (st : MgrState)
    (cid mac proxy : String) (cl : Nat) (su nu wu : String) (dn : Option String)
    (cb : Nat) (m : String) (beh : ConnectBehavior)
    (h0 : lookupConn st.conns cid = none)
    (hok : beh.connectOutcome = ConnectOutcome.ok)
    (hsub : beh.subscribeError = some m) :
    (connect_device st cid mac proxy cl su nu wu dn (some cb) beh).result =
        Except.error ("Connection failed: Subscription failed: " ++ m)
  ∧ lookupConn (connect_device st cid mac proxy cl su nu wu dn (some cb) beh).state.conns cid =
      none
  ∧ (connect_device st cid mac proxy cl su nu wu dn (some cb) beh).state = st
  ∧ (connect_device st cid mac proxy cl su nu wu dn (some cb) beh).trace =
      [TransportCall.deviceConnect mac, TransportCall.subscribeRawAdvertisements cb]
  ∧ (connect_device st cid mac proxy cl su nu wu dn (some cb) beh).trace.filter
      isDeviceDisconnect = [] := by
  refine ⟨?_, ?_, ?_, ?_, ?_⟩ <;>
    simp [connect_device, disconnect_device, h0, hok, hsub, isDeviceDisconnect]

/-- Witness for `connect_subscribe_failure_leaks_connection` on a fresh
manager. -/
theorem connect_subscribe_failure_leaks_connection_witness :
    (connect_device { conns := [], subs := [] } "t" "AA:BB:CC:DD:EE:01" "proxy" 1
        "svc" "ntf" "wrt" none (some 9)
        { predisconnectError := none, connectOutcome := .ok
          subscribeError := some "subscribe raised" }).result =
        Except.error ("Connection failed: Subscription failed: " ++ "subscribe raised")
  ∧ lookupConn (connect_device { conns := [], subs := [] } "t" "AA:BB:CC:DD:EE:01" "proxy" 1
        "svc" "ntf" "wrt" none (some 9)
        { predisconnectError := none, connectOutcome := .ok
          subscribeError := some "subscribe raised" }).state.conns "t" = none
  ∧ (connect_device { conns := [], subs := [] } "t" "AA:BB:CC:DD:EE:01" "proxy" 1
        "svc" "ntf" "wrt" none (some 9)
        { predisconnectError := none, connectOutcome := .ok
          subscribeError := some "subscribe raised" }).state = { conns := [], subs := [] }
  ∧ (connect_device { conns := [], subs := [] } "t" "AA:BB:CC:DD:EE:01" "proxy" 1
        "svc" "ntf" "wrt" none (some 9)
        { predisconnectError := none, connectOutcome := .ok
          subscribeError := some "subscribe raised" }).trace =
      [TransportCall.deviceConnect "AA:BB:CC:DD:EE:01",
       TransportCall.subscribeRawAdvertisements 9]
  ∧ (connect_device { conns := [], subs := [] } "t" "AA:BB:CC:DD:EE:01" "proxy" 1
        "svc" "ntf" "wrt" none (some 9)
        { predisconnectError := none, connectOutcome := .ok
          subscribeError := some "subscribe raised" }).trace.filter isDeviceDisconnect = [] :=
  connect_subscribe_failure_leaks_connection { conns := [], subs := [] } "t"
    "AA:BB:CC:DD:EE:01" "proxy" 1 "svc" "ntf" "wrt" none 9 "subscribe raised"
    { predisconnectError := none, connectOutcome := .ok
      subscribeError := some "subscribe raised" } (by rfl) (by rfl) (by rfl)

/-- C2. Evaluation of the code at the failing scenario: session `"s"` connects
to `AA:BB:CC:DD:EE:FF` with a notification callback, then tears the
connection down via `disconnect_device` — the path whose comment says the
callback should no longer be called (`connection.notification_callback =
None`). Afterwards the registry entry is gone, yet the forwarding closure
installed on the transport client is still present, and a notification frame
arriving for the device is still forwarded to the captured callback: the
closure never consults the cleared `notification_callback` field, so the
session keeps receiving Notification events after the unsubscribe/teardown. -/
theorem notification_after_teardown_still_forwarded :
    (disconnect_device
        (connect_device { conns := [], subs := [] } "s" "AA:BB:CC:DD:EE:FF" "proxy" 0
          "svc" "ntf" "wrt" none (some 7)
          { predisconnectError := none, connectOutcome := .ok
            subscribeError := none }).state
        "s" none).state.conns = []
  ∧ (disconnect_device
        (connect_device { conns := [], subs := [] } "s" "AA:BB:CC:DD:EE:FF" "proxy" 0
          "svc" "ntf" "wrt" none (some 7)
          { predisconnectError := none, connectOutcome := .ok
            subscribeError := none }).state
        "s" none).state.subs =
      [{ mac := "AA:BB:CC:DD:EE:FF", charUuid := "ntf", callback := 7 }]
  ∧ on_notification { mac := "AA:BB:CC:DD:EE:FF", charUuid := "ntf", callback := 7 }
      "aa:bb:cc:dd:ee:ff" [1, 2, 3] = some ("ntf", [1, 2, 3]) := by
  refine ⟨rfl, rfl, ?_⟩
  rfl

/-! MAC validation lemmas and claim theorems. -/

theorem hexPairColon_some {cs r : List Char} (h : hexPairColon cs = some r) :
    ∃ a b, isHexUp a = true ∧ isHexUp b = true ∧ cs = a :: b :: ':' :: r := by
  obtain _ | ⟨a, _ | ⟨b, _ | ⟨c, t⟩⟩⟩ := cs
  · simp [hexPairColon] at h
  · simp [hexPairColon] at h
  · simp [hexPairColon] at h
  · simp only [hexPairColon] at h
    split at h
    · next hcond =>
        simp only [Bool.and_eq_true, beq_iff_eq] at hcond
        obtain ⟨⟨ha, hb⟩, hc⟩ := hcond
        injection h with h
        exact ⟨a, b, ha, hb, by rw [hc, h]⟩
    · exact absurd h (by simp)

theorem hexPairEnd_true {cs : List Char} (h : hexPairEnd cs = true) :
    ∃ a b, isHexUp a = true ∧ isHexUp b = true ∧ cs = [a, b] := by
  obtain _ | ⟨a, _ | ⟨b, _ | ⟨c, t⟩⟩⟩ := cs
  · simp [hexPairEnd] at h
  · simp [hexPairEnd] at h
  · simp only [hexPairEnd, Bool.and_eq_true] at h
    exact ⟨a, b, h.1, h.2, rfl⟩
  · simp [hexPairEnd] at h

theorem macRegexCore_sixHexPairs {cs : List Char} (h : macRegexCore cs = true) :
    sixHexPairs ⟨cs⟩ = true := by
  unfold macRegexCore at h
  cases h1 : hexPairColon cs with
  | none => rw [h1] at h; simp at h
  | some r1 =>
  rw [h1] at h
  simp only [Option.some_bind] at h
  cases h2 : hexPairColon r1 with
  | none => rw [h2] at h; simp at h
  | some r2 =>
  rw [h2] at h
  simp only [Option.some_bind] at h
  cases h3 : hexPairColon r2 with
  | none => rw [h3] at h; simp at h
  | some r3 =>
  rw [h3] at h
  simp only [Option.some_bind] at h
  cases h4 : hexPairColon r3 with
  | none => rw [h4] at h; simp at h
  | some r4 =>
  rw [h4] at h
  simp only [Option.some_bind] at h
  cases h5 : hexPairColon r4 with
  | none => rw [h5] at h; simp at h
  | some r5 =>
  rw [h5] at h
  have hend : hexPairEnd r5 = true := h
  obtain ⟨a1, a2, ha1, ha2, e1⟩ := hexPairColon_some h1
  obtain ⟨b1, b2, hb1, hb2, e2⟩ := hexPairColon_some h2
  obtain ⟨c1, c2, hc1, hc2, e3⟩ := hexPairColon_some h3
  obtain ⟨d1, d2, hd1, hd2, e4⟩ := hexPairColon_some h4
  obtain ⟨e1', e2', he1, he2, e5⟩ := hexPairColon_some h5
  obtain ⟨f1, f2, hf1, hf2, e6⟩ := hexPairEnd_true hend
  subst e6 e5 e4 e3 e2 e1
  simp [sixHexPairs, ha1, ha2, hb1, hb2, hc1, hc2, hd1, hd2, he1, he2, hf1, hf2]

theorem macRegexMatch_shape {s : String} (h : macRegexMatch s = true) :
    sixHexPairsOptNL s = true := by
  unfold macRegexMatch at h
  simp only [Bool.or_eq_true, Bool.and_eq_true] at h
  unfold sixHexPairsOptNL
  simp only [Bool.or_eq_true, Bool.and_eq_true]
  cases h with
  | inl h1 =>
      left
      exact macRegexCore_sixHexPairs h1
  | inr h2 =>
      right
      exact ⟨h2.1, macRegexCore_sixHexPairs h2.2⟩

/-- C8 counterexample. The input `"aa-bb-cc-dd-ee-ff\n"` normalizes to
`"AA:BB:CC:DD:EE:FF\n"`, which is not six colon-separated pairs of
hexadecimal digits (it has a trailing newline), yet `validate_mac_address`
accepts it and returns the newline-bearing string: in Python `re`, the `$`
anchor also matches just before a trailing newline, so the claimed rejection
of every non-matching normalized input is false of the code. -/
theorem mac_trailing_newline_accepted_cx :
    sixHexPairs (normalizeMac "aa-bb-cc-dd-ee-ff\n") = false
  ∧ validate_mac_address "aa-bb-cc-dd-ee-ff\n" = .ok "AA:BB:CC:DD:EE:FF\n" := by
  exact ⟨rfl, rfl⟩

/-- C8 amended. MAC validation normalizes hyphen-separated lowercase input to
uppercase colon-separated form (`"aa-bb-cc-dd-ee-ff"` becomes
`"AA:BB:CC:DD:EE:FF"`), rejects `"zz:11:22:33:44:55"`, and rejects every
input whose normalization does not match six colon-separated pairs of
hexadecimal digits optionally followed by a single trailing newline (the
newline allowance is forced by the semantics of Python's `$` anchor). -/
theorem mac_validation_amended :
    validate_mac_address "aa-bb-cc-dd-ee-ff" = .ok "AA:BB:CC:DD:EE:FF"
  ∧ validate_mac_address "zz:11:22:33:44:55" =
      .error "Invalid MAC address format. Expected format: AA:BB:CC:DD:EE:FF"
  ∧ ∀ v, sixHexPairsOptNL (normalizeMac v) = false →
      validate_mac_address v =
        .error "Invalid MAC address format. Expected format: AA:BB:CC:DD:EE:FF" := by
  refine ⟨rfl, rfl, ?_⟩
  intro v hv
  have hm : macRegexMatch (normalizeMac v) = false := by
    cases hm : macRegexMatch (normalizeMac v)
    · rfl
    · rw [macRegexMatch_shape hm] at hv
      cases hv
  unfold validate_mac_address
  simp [hm]

/-- Witness for `mac_validation_amended` at the spec's rejection example. -/
theorem mac_validation_amended_witness :
    sixHexPairsOptNL (normalizeMac "zz:11:22:33:44:55") = false
  ∧ validate_mac_address "zz:11:22:33:44:55" =
      .error "Invalid MAC address format. Expected format: AA:BB:CC:DD:EE:FF" :=
  ⟨rfl, mac_validation_amended.2.2 "zz:11:22:33:44:55" rfl⟩

/-! Session handler claim theorems. -/

/-- C3. Every frame that is malformed JSON or schema-invalid (missing or
mistyped required field, unrecognized or non-string command tag, non-object
frame) is answered with exactly one event, an error event, no manager call is
made, and the session state is unchanged — in particular `running` is
untouched, so the receive loop goes on to the next frame. -/
theorem decode_failure_single_error (st : SessionState) (frame : ParseResult)
    (beh : MgrBehavior) (h : decodeFails frame = true) :
    ∃ m, handle_message st frame beh =
      { events := [Event.error m], calls := [], state := st } := by
  cases frame with
  | malformed d => exact ⟨"Invalid JSON: " ++ d, rfl⟩
  | parsed v =>
      cases v with
      | jobj fields =>
          cases ht : getField fields "type" with
          | none =>
              exact ⟨"Unknown message type: " ++ jvalStr none, by simp [handle_message, ht]⟩
          | some tv =>
              cases tv with
              | jstr tag =>
                  simp only [decodeFails, ht] at h
                  simp only [handle_message, ht]
                  unfold dispatchTag
                  by_cases h1 : (tag == "connect") = true
                  · rw [if_pos h1] at h
                    rw [if_pos h1]
                    have hv : validConnectMsg fields = false := by simpa using h
                    rw [if_neg (by simp [hv])]
                    exact ⟨"Invalid message format: validation error", rfl⟩
                  · rw [if_neg h1] at h
                    rw [if_neg h1]
                    by_cases h2 : (tag == "disconnect") = true
                    · rw [if_pos h2] at h
                      simp [validDisconnectMsg] at h
                    · rw [if_neg h2] at h
                      rw [if_neg h2]
                      by_cases h3 : (tag == "write") = true
                      · rw [if_pos h3] at h
                        rw [if_pos h3]
                        have hv : validWriteMsg fields = false := by simpa using h
                        rw [if_neg (by simp [hv])]
                        exact ⟨"Invalid message format: validation error", rfl⟩
                      · rw [if_neg h3] at h
                        rw [if_neg h3]
                        by_cases h4 : (tag == "subscribe") = true
                        · rw [if_pos h4] at h
                          rw [if_pos h4]
                          have hv : validSubscribeMsg fields = false := by simpa using h
                          rw [if_neg (by simp [hv])]
                          exact ⟨"Invalid message format: validation error", rfl⟩
                        · rw [if_neg h4] at h
                          rw [if_neg h4]
                          by_cases h5 : (tag == "unsubscribe") = true
                          · rw [if_pos h5] at h
                            rw [if_pos h5]
                            have hv : validUnsubscribeMsg fields = false := by simpa using h
                            rw [if_neg (by simp [hv])]
                            exact ⟨"Invalid message format: validation error", rfl⟩
                          · rw [if_neg h5] at h
                            rw [if_neg h5]
                            by_cases h6 : (tag == "discover") = true
                            · rw [if_pos h6] at h
                              rw [if_pos h6]
                              have hv : validDiscoverMsg fields = false := by simpa using h
                              rw [if_neg (by simp [hv])]
                              exact ⟨"Invalid message format: validation error", rfl⟩
                            · rw [if_neg h6]
                              exact ⟨"Unknown message type: " ++ tag, rfl⟩
              | jnull =>
                  exact ⟨"Unknown message type: " ++ jvalStr (some .jnull),
                    by simp [handle_message, ht]⟩
              | jbool b =>
                  exact ⟨"Unknown message type: " ++ jvalStr (some (.jbool b)),
                    by simp [handle_message, ht]⟩
              | jnum n =>
                  exact ⟨"Unknown message type: " ++ jvalStr (some (.jnum n)),
                    by simp [handle_message, ht]⟩
              | jarr xs =>
                  exact ⟨"Unknown message type: " ++ jvalStr (some (.jarr xs)),
                    by simp [handle_message, ht]⟩
              | jobj o =>
                  exact ⟨"Unknown message type: " ++ jvalStr (some (.jobj o)),
                    by simp [handle_message, ht]⟩
      | jnull => exact ⟨"Error handling message: AttributeError", rfl⟩
      | jbool b => exact ⟨"Error handling message: AttributeError", rfl⟩
      | jnum n => exact ⟨"Error handling message: AttributeError", rfl⟩
      | jstr s => exact ⟨"Error handling message: AttributeError", rfl⟩
      | jarr xs => exact ⟨"Error handling message: AttributeError", rfl⟩

/-- Witness for `decode_failure_single_error` on a malformed frame. -/
theorem decode_failure_single_error_witness :
    decodeFails (ParseResult.malformed "Expecting value: line 1 column 1") = true
  ∧ ∃ m, handle_message sampleSession
      (ParseResult.malformed "Expecting value: line 1 column 1") sampleBeh =
      { events := [Event.error m], calls := [], state := sampleSession } :=
  ⟨rfl, decode_failure_single_error sampleSession
    (ParseResult.malformed "Expecting value: line 1 column 1") sampleBeh rfl⟩

/-- C9 counterexample. The data field `"!"` is not valid base64 text, yet
decoding does not fail: `base64.b64decode` discards the non-alphabet
character, the payload decodes to the empty byte string, the transport write
IS invoked, and no error event of any kind is emitted — so a non-base64
payload is not a `SchemaInvalid` codec error. And for the data field `"A"`,
where decoding does fail, the failure is reported as `"Write failed: ..."` —
the shape of a write failure — not as a schema-invalid protocol error. -/
theorem write_non_base64_cx :
    b64decode "!" = .ok []
  ∧ handle_write sampleSession "X" "!" true sampleBeh =
      { events := [Event.status true none "Wrote 0 bytes to X"]
        calls := [ManagerCall.mwrite "X" [] true], state := sampleSession }
  ∧ (handle_write sampleSession "X" "!" true sampleBeh).events.filter isErrorEvent = []
  ∧ handle_write sampleSession "X" "A" true sampleBeh =
      { events := [Event.error "Write failed: Invalid base64-encoded string"]
        calls := [], state := sampleSession } := by
  exact ⟨rfl, rfl, rfl, rfl⟩

/-- C9 amended. A write command whose data field fails base64 decoding (after
the lenient decoder has discarded characters outside the base64 alphabet, an
impossible length or missing padding remains) is answered with exactly one
error event carrying the `"Write failed: ..."` message, and the transport
write is never invoked; a data field that does decode (possibly with
non-alphabet characters silently discarded) is decoded to raw bytes, which
are exactly what is passed to the transport write. -/
theorem write_base64_decode_amended (st : SessionState) (uuid s : String)
    (wr : Bool) (beh : MgrBehavior) :
    (∀ e, b64decode s = .error e →
      handle_write st uuid s wr beh =
        { events := [Event.error ("Write failed: " ++ e)], calls := [], state := st })
  ∧ (∀ bs, b64decode s = .ok bs →
      (handle_write st uuid s wr beh).calls = [ManagerCall.mwrite uuid bs wr]) := by
  constructor
  · intro e he
    simp [handle_write, he]
  · intro bs hb
    cases hw : beh.writeResult <;> simp [handle_write, hb, hw]

/-- Witness for `write_base64_decode_amended` on a failing and a succeeding
payload. -/
theorem write_base64_decode_amended_witness :
    b64decode "A" = .error "Invalid base64-encoded string"
  ∧ handle_write sampleSession "X" "A" true sampleBeh =
      { events := [Event.error ("Write failed: " ++ "Invalid base64-encoded string")]
        calls := [], state := sampleSession }
  ∧ b64decode "AQID" = .ok [1, 2, 3]
  ∧ (handle_write sampleSession "X" "AQID" true sampleBeh).calls =
      [ManagerCall.mwrite "X" [1, 2, 3] true] :=
  ⟨rfl, (write_base64_decode_amended sampleSession "X" "A" true sampleBeh).1
      "Invalid base64-encoded string" rfl,
   rfl, (write_base64_decode_amended sampleSession "X" "AQID" true sampleBeh).2
      [1, 2, 3] rfl⟩

/-- C10. While the manager reports an active device connection, every Status
event built by `send_status` carries the manager's `device_address` in its
`device_name` field — regardless of the advertised device name the manager
may hold — so a client reading `deviceName` from a Status event receives the
address. -/
theorem status_device_name_is_address (st : SessionState) (connected : Bool)
    (msg : String) (h : st.mgrConnected = true) :
    send_status st connected msg = Event.status connected st.mgrAddress msg := by
  simp [send_status, h]

/-- Witness for `status_device_name_is_address`: the manager holds both an
address and an advertised name, and the Status event carries the address. -/
theorem status_device_name_is_address_witness :
    send_status
        { running := true, mgrConnected := true
          mgrAddress := some "AA:BB:CC:DD:EE:FF", mgrName := some "SFP Wizard" }
        true "Wrote 3 bytes to X" =
      Event.status true (some "AA:BB:CC:DD:EE:FF") "Wrote 3 bytes to X" :=
  status_device_name_is_address
    { running := true, mgrConnected := true
      mgrAddress := some "AA:BB:CC:DD:EE:FF", mgrName := some "SFP Wizard" }
    true "Wrote 3 bytes to X" rfl

end SFPLiberate

